import Mathlib

/-!
Shallow embedding of the labgrid-plugins bring-up orchestrators
(`adi_lg_plugins/strategies/bootfpgasoc.py`, `bootfpgasocssh.py`,
`bootfabric.py`) and of the Kuiper release download cache
(`adi_lg_plugins/drivers/kuiperdldriver.py`).

External device operations (power, SD mux, shell, SSH, JTAG, file copy,
console expect) are modelled as an inductive `Opr` type.  A strategy run
carries a world `W` holding the strategy's `status` field and the ordered
trace of attempted operations.  Whether an attempted operation succeeds or
raises is decided by an oracle `Nat → Bool` indexed by the position of the
operation in the trace; a Python exception is the `some` case of the
returned `Option SErr`, propagated unchanged by the sequencing combinator
`wbind` exactly as an uncaught exception propagates.  `time.sleep` cannot
raise and is recorded without consulting the oracle.  Logger calls,
`step.skip`, and pure attribute writes (`bypass_login`) perform no external
operation and are not recorded.

Recursion in `transition` ("transition to my predecessor first") is bounded
by an explicit fuel argument; every status enum has fewer than 9 members and
each recursive call strictly descends the predecessor chain, so fuel 9 is
never exhausted in any theorem below.
-/

/-- Resources bound to a strategy target (the keys of the `bindings` dicts). -/
inductive Res where
  | shell
  | power
  | sdmux
  | massStorage
  | imageWriter
  | ssh
  | jtag
  deriving DecidableEq, Repr

/-- External operations a transition step can attempt, in source order. -/
inductive Opr where
  | activate (r : Res)
  | deactivate (r : Res)
  | powerOn
  | powerOff
  | setMode (mode : String)
  | sleep (seconds : Nat)
  | writeImage
  | mountPartition
  | unmountPartition
  | copyFile (src dst : String)
  | expectConsole (pattern : String)
  | sendline (cmd : String)
  | runCmd (cmd : String)
  | sshPut (src dst : String)
  | getIp (iface : String)
  | loadBitstreamAndKernelAndStart
  deriving DecidableEq, Repr

/-- Errors a transition can raise.  `strategyError` is labgrid's
`StrategyError`; `opFailed o` is any exception raised by the external
operation `o`; `noneDeref` is the `AttributeError`/`TypeError` raised by
dereferencing an unbound (`None`) optional resource; `outOfFuel` marks
exhausted recursion fuel (never reached at fuel 9). -/
inductive SErr where
  | strategyError
  | opFailed (o : Opr)
  | noneDeref
  | outOfFuel
  deriving DecidableEq, Repr

/-- Success/failure oracle for attempted operations, indexed by trace position. -/
abbrev Oracle := Nat → Bool

/-- World state of one strategy object: its `status` attribute and the trace
of external operations attempted so far. -/
structure W (σ : Type) where
  status : σ
  trace : List Opr
  deriving DecidableEq, Repr

/-- Record an attempted operation in the trace. -/
def att {σ : Type} (o : Opr) (w : W σ) : W σ :=
  { w with trace := w.trace ++ [o] }

/-- Attempt one external operation.  `sleep` cannot raise; any other
operation raises `opFailed` when the oracle says `false` at its position. -/
def doOp {σ : Type} (env : Oracle) (o : Opr) (w : W σ) : W σ × Option SErr :=
  match o with
  | .sleep n => (att (.sleep n) w, none)
  | _ => if env w.trace.length then (att o w, none) else (att o w, some (.opFailed o))

/-- Run a list of operations in order, stopping at the first failure. -/
def runOps {σ : Type} (env : Oracle) : List Opr → W σ → W σ × Option SErr
  | [], w => (w, none)
  | o :: rest, w =>
    match doOp env o w with
    | (w1, none) => runOps env rest w1
    | (w1, some e) => (w1, some e)

/-- Exception-propagating sequencing: a raised error short-circuits. -/
def wbind {σ : Type} (r : W σ × Option SErr) (f : W σ → W σ × Option SErr) :
    W σ × Option SErr :=
  match r with
  | (w, none) => f w
  | (w, some e) => (w, some e)

/-- Python `try: <tryL> except Exception: <excL>`: a failure anywhere in the
try block is swallowed and the handler's operations run instead. -/
def tryOps {σ : Type} (env : Oracle) (tryL excL : List Opr) (w : W σ) :
    W σ × Option SErr :=
  match runOps env tryL w with
  | (w1, none) => (w1, none)
  | (w1, some _) => runOps env excL w1

/-- Shared success epilogue of every transition branch: the Python
`self.status = status` line that runs only when the branch body returned
without raising. -/
def finishStep {σ : Type} (s : σ) (r : W σ × Option SErr) : W σ × Option SErr :=
  match r with
  | (w, none) => ({ w with status := s }, none)
  | (w, some e) => (w, some e)

/-- Oracle under which every operation succeeds. -/
def envTrue : Oracle := fun _ => true

/-- Oracle under which exactly the operation at position `k` fails. -/
def envFailAt (k : Nat) : Oracle := fun n => if n = k then false else true

namespace BootFPGASoC

/-- State machine of `bootfpgasoc.py` (`Status` enum, values 0-8). -/
inductive Status where
  | unknown
  | powered_off
  | sd_mux_to_host
  | update_boot_files
  | sd_mux_to_dut
  | booting
  | booted
  | shell
  | soft_off
  deriving DecidableEq, Repr

/-- Enum value of each state (`enum.Enum` member values in the source). -/
def rank : Status → Nat
  | .unknown => 0
  | .powered_off => 1
  | .sd_mux_to_host => 2
  | .update_boot_files => 3
  | .sd_mux_to_dut => 4
  | .booting => 5
  | .booted => 6
  | .shell => 7
  | .soft_off => 8

/-- Proper iterated predecessors of a state, following the recursive
`self.transition(...)` call at the head of each branch of
`BootFPGASoC.transition`. -/
def predList : Status → List Status
  | .unknown => []
  | .powered_off => []
  | .sd_mux_to_host => [.powered_off]
  | .update_boot_files => [.sd_mux_to_host, .powered_off]
  | .sd_mux_to_dut => [.update_boot_files, .sd_mux_to_host, .powered_off]
  | .booting => [.sd_mux_to_dut, .update_boot_files, .sd_mux_to_host, .powered_off]
  | .booted => [.booting, .sd_mux_to_dut, .update_boot_files, .sd_mux_to_host, .powered_off]
  | .shell => [.booted, .booting, .sd_mux_to_dut, .update_boot_files, .sd_mux_to_host,
      .powered_off]
  | .soft_off => [.shell, .booted, .booting, .sd_mux_to_dut, .update_boot_files,
      .sd_mux_to_host, .powered_off]

/-- Configuration of a `BootFPGASoC` instance: the boot-file list held by the
bound `KuiperDLDriver` (`self.kuiper._boot_files`), the
`reached_linux_marker` attribute, the `update_image` attribute, and whether
the optional `image_writer` binding is present. -/
structure Config where
  bootFiles : List String
  reachedLinuxMarker : String
  updateImage : Bool
  imageWriter : Bool
  deriving DecidableEq, Repr

/-- `BootFPGASoC.transition` (bootfpgasoc.py lines 113-206).  Each branch
first recursively transitions to its predecessor state, then runs its own
operations in source order; `finishStep` is the trailing
`self.status = status` that only runs if nothing raised. -/
def transition (cfg : Config) (env : Oracle) : Nat → Status → W Status →
    W Status × Option SErr
  | 0, _, w => (w, some .outOfFuel)
  | fuel + 1, s, w =>
    if s = Status.unknown then (w, some .strategyError)
    else if s = w.status then (w, none)
    else
      finishStep s
        (match s with
         | .unknown => (w, some .strategyError)
         | .powered_off =>
           runOps env [.deactivate .shell, .activate .power, .powerOff] w
         | .sd_mux_to_host =>
           wbind (transition cfg env fuel .powered_off w)
             (runOps env [.activate .sdmux, .setMode "host", .sleep 5])
         | .update_boot_files =>
           wbind (transition cfg env fuel .sd_mux_to_host w) (fun w1 =>
             runOps env
               ((if cfg.imageWriter && cfg.updateImage then
                   [.activate .imageWriter, .writeImage, .deactivate .imageWriter]
                 else []) ++
                [.activate .massStorage, .mountPartition] ++
                cfg.bootFiles.map (fun f => .copyFile f "/") ++
                [.unmountPartition, .deactivate .massStorage]) w1)
         | .sd_mux_to_dut =>
           wbind (transition cfg env fuel .update_boot_files w)
             (runOps env [.setMode "dut", .sleep 5])
         | .booting =>
           wbind (transition cfg env fuel .sd_mux_to_dut w)
             (runOps env [.activate .power, .sleep 5, .powerOn])
         | .booted =>
           wbind (transition cfg env fuel .booting w)
             (runOps env [.activate .shell, .expectConsole "Linux",
               .expectConsole cfg.reachedLinuxMarker, .deactivate .shell])
         | .shell =>
           wbind (transition cfg env fuel .booted w)
             (runOps env [.activate .shell])
         | .soft_off =>
           wbind (transition cfg env fuel .shell w) (fun w1 =>
             wbind
               (tryOps env
                 [.sendline "poweroff", .expectConsole ".*Power down.*",
                  .deactivate .shell, .sleep 10]
                 [.sleep 5, .deactivate .shell] w1)
               (runOps env [.activate .power, .powerOff])))

end BootFPGASoC

namespace BootFPGASoCSSH

/-- State machine of `bootfpgasocssh.py` (`Status` enum, values 0-8). -/
inductive Status where
  | unknown
  | powered_off
  | booting
  | booted
  | update_boot_files
  | reboot
  | booting_new
  | shell
  | soft_off
  deriving DecidableEq, Repr

/-- Enum value of each state. -/
def rank : Status → Nat
  | .unknown => 0
  | .powered_off => 1
  | .booting => 2
  | .booted => 3
  | .update_boot_files => 4
  | .reboot => 5
  | .booting_new => 6
  | .shell => 7
  | .soft_off => 8

/-- Proper iterated predecessors of a state, following the recursive
`self.transition(...)` call at the head of each branch of
`BootFPGASoCSSH.transition`. -/
def predList : Status → List Status
  | .unknown => []
  | .powered_off => []
  | .booting => [.powered_off]
  | .booted => [.booting, .powered_off]
  | .update_boot_files => [.booted, .booting, .powered_off]
  | .reboot => [.update_boot_files, .booted, .booting, .powered_off]
  | .booting_new => [.reboot, .update_boot_files, .booted, .booting, .powered_off]
  | .shell => [.booting_new, .reboot, .update_boot_files, .booted, .booting, .powered_off]
  | .soft_off => [.shell, .booting_new, .reboot, .update_boot_files, .booted, .booting,
      .powered_off]

/-- Configuration of a `BootFPGASoCSSH` instance: whether the optional
`power` binding is set, whether the optional `kuiper` binding is set, the
kuiper driver's boot-file list, and the `hostname` attribute. -/
structure Config where
  power : Bool
  kuiper : Bool
  bootFiles : List String
  hostname : String
  deriving DecidableEq, Repr

/-- `BootFPGASoCSSH.transition` (bootfpgasocssh.py lines 59-179).  The
optional `power` binding is guarded by `if self.power:` in the
`powered_off`, `booting` and `booted` branches, but the `soft_off` branch
dereferences `self.power` unconditionally
(`self.target.activate(self.power); self.power.off()`), which with
`power = None` raises (`noneDeref`) before any power operation is issued
and before `self.status` is assigned. -/
def transition (cfg : Config) (env : Oracle) : Nat → Status → W Status →
    W Status × Option SErr
  | 0, _, w => (w, some .outOfFuel)
  | fuel + 1, s, w =>
    if s = Status.unknown then (w, some .strategyError)
    else if s = w.status then (w, none)
    else
      finishStep s
        (match s with
         | .unknown => (w, some .strategyError)
         | .powered_off =>
           runOps env
             ([.deactivate .shell] ++
              (if cfg.power then [.activate .power, .powerOff] else [])) w
         | .booting =>
           wbind (transition cfg env fuel .powered_off w)
             (runOps env
               (if cfg.power then [.activate .power, .sleep 5, .powerOn] else []))
         | .booted =>
           wbind (transition cfg env fuel .booting w)
             (runOps env
               (if cfg.power then
                  [.activate .shell, .expectConsole "Linux",
                   .expectConsole cfg.hostname, .deactivate .shell]
                else []))
         | .update_boot_files =>
           wbind (transition cfg env fuel .booted w)
             (runOps env
               ([.activate .shell, .getIp "eth0", .deactivate .shell,
                 .activate .ssh] ++
                (if cfg.kuiper then
                   cfg.bootFiles.map (fun f => .sshPut f "/boot/")
                 else []) ++
                [.deactivate .ssh]))
         | .reboot =>
           wbind (transition cfg env fuel .update_boot_files w) (fun w1 =>
             wbind (runOps env [.activate .shell] w1) (fun w2 =>
               wbind (tryOps env [.runCmd "reboot"] [] w2)
                 (runOps env [.deactivate .shell])))
         | .booting_new =>
           wbind (transition cfg env fuel .reboot w)
             (runOps env [.activate .shell, .expectConsole "Linux",
               .expectConsole cfg.hostname, .deactivate .shell])
         | .shell =>
           wbind (transition cfg env fuel .booting_new w)
             (runOps env [.activate .shell])
         | .soft_off =>
           wbind (transition cfg env fuel .shell w) (fun w1 =>
             wbind
               (tryOps env
                 [.runCmd "poweroff", .expectConsole "Power down",
                  .deactivate .shell, .sleep 10]
                 [.sleep 5, .deactivate .shell] w1)
               (fun w2 =>
                 if cfg.power then
                   runOps env [.activate .power, .powerOff] w2
                 else (w2, some .noneDeref))))

end BootFPGASoCSSH

namespace BootFabric

/-- State machine of `bootfabric.py` (`Status` enum, values 0-6). -/
inductive Status where
  | unknown
  | powered_off
  | powered_on
  | flash_fpga
  | booted
  | shell
  | soft_off
  deriving DecidableEq, Repr

/-- Configuration of a `BootFabric` instance: whether the optional `power`
and `shell` bindings are set, the `reached_boot_marker` and
`wait_for_boot_timeout` attributes, and the optional `verify_iio_device`
attribute. -/
structure Config where
  power : Bool
  shell : Bool
  reachedBootMarker : String
  waitForBootTimeout : Nat
  verifyIioDevice : Option String
  deriving DecidableEq, Repr

/-- `BootFabric._verify_iio_device` (bootfabric.py lines 235-254): poll
`iio_attr` via the shell up to 30 times.  `found n` tells whether the poll
command issued at trace position `n` reports the device present; the
command itself can also raise via `env` (e.g. a run timeout), which
propagates.  After 30 unsuccessful polls a `StrategyError` is raised. -/
def verify_iio_device (env : Oracle) (found : Oracle) (name : String) :
    Nat → W Status → W Status × Option SErr
  | 0, w => (w, some .strategyError)
  | n + 1, w =>
    match doOp env (.runCmd ("iio_attr -d " ++ name ++ " name")) w with
    | (w1, some e) => (w1, some e)
    | (w1, none) =>
      if found w.trace.length then (w1, none)
      else verify_iio_device env found name n (att (.sleep 1) w1)

/-- `BootFabric.transition` (bootfabric.py lines 101-233).  Optional
resources are guarded everywhere (`if self.power:`, `if self.shell:`); the
`shell` target raises `StrategyError` when no shell driver is configured;
`soft_off` runs its graceful part first, then transitions to
`powered_off`. -/
def transition (cfg : Config) (env : Oracle) (found : Oracle) :
    Nat → Status → W Status → W Status × Option SErr
  | 0, _, w => (w, some .outOfFuel)
  | fuel + 1, s, w =>
    if s = Status.unknown then (w, some .strategyError)
    else if s = w.status then (w, none)
    else
      finishStep s
        (match s with
         | .unknown => (w, some .strategyError)
         | .powered_off =>
           runOps env
             ((if cfg.shell then [.deactivate .shell] else []) ++
              (if cfg.power then [.activate .power, .powerOff] else [])) w
         | .powered_on =>
           wbind (transition cfg env found fuel .powered_off w)
             (runOps env
               (if cfg.power then
                  [.activate .power, .sleep 2, .powerOn, .sleep 5]
                else []))
         | .flash_fpga =>
           wbind (transition cfg env found fuel .powered_on w)
             (runOps env [.activate .jtag, .loadBitstreamAndKernelAndStart])
         | .booted =>
           wbind (transition cfg env found fuel .flash_fpga w)
             (runOps env
               (if cfg.shell then
                  [.activate .shell, .expectConsole "Linux",
                   .expectConsole cfg.reachedBootMarker, .deactivate .shell]
                else [.sleep cfg.waitForBootTimeout]))
         | .shell =>
           wbind (transition cfg env found fuel .booted w) (fun w1 =>
             if cfg.shell then
               wbind (runOps env [.activate .shell] w1) (fun w2 =>
                 match cfg.verifyIioDevice with
                 | some name => verify_iio_device env found name 30 w2
                 | none => (w2, none))
             else (w1, some .strategyError))
         | .soft_off =>
           wbind
             (if cfg.shell then
                tryOps env
                  [.activate .shell, .runCmd "poweroff",
                   .expectConsole "Power down", .deactivate .shell, .sleep 10]
                  [.deactivate .shell] w
              else (w, none))
             (fun w1 => transition cfg env found fuel .powered_off w1))

end BootFabric

/-!
Model of the Kuiper release cache (`adi_lg_plugins/drivers/kuiperdldriver.py`).

The filesystem is abstracted to the set of existing file paths (`files`),
the parsed content of the on-disk `cache_info.json` version index (`index`,
`none` when the file does not exist), and a counter of network downloads
performed (`downloadCount`).  Directories, the `hashes.txt` append log and
timestamps are not modelled: no claim depends on them.  What MD5 the
downloaded archive and the extracted image actually hash to is supplied by
a `DiskEnv`; `Downloader.check` compares it with the reference hash from
`Downloader.releases` and raises on mismatch.
-/

/-- Content of the `cache_info.json` index: release version → image path
(the `image_path` field of each entry; `download_time`/`download_date` are
not modelled). -/
abbrev IndexData := List (String × String)

/-- Python dict assignment `cache_data[version] = {...}`: replace the entry
for `v` if present, else append it. -/
def setEntry (v p : String) : IndexData → IndexData
  | [] => [(v, p)]
  | (k, x) :: rest => if k = v then (v, p) :: rest else (k, x) :: setEntry v p rest

/-- Python dict lookup `cache_data[version]` / the `for release in
cache_data: if release == release_version` loop of `check_cached`. -/
def lookupEntry (v : String) : IndexData → Option String
  | [] => none
  | (k, x) :: rest => if k = v then some x else lookupEntry v rest

/-- Errors the download pipeline can raise. `md5Failed` is the
`Exception("MD5 hash check failed")` of `Downloader.check` (the spec's
`IntegrityError`); `notImplemented` is the `NotImplementedError` of the
boot-files branch; `unknownRelease` is `Exception("Unknown release")`. -/
inductive DErr where
  | md5Failed
  | notImplemented
  | unknownRelease
  deriving DecidableEq, Repr

/-- Abstracted on-disk state seen by `KuiperDLDriver`. -/
structure FS where
  files : List String
  index : Option IndexData
  downloadCount : Nat
  deriving DecidableEq, Repr

/-- Release metadata returned by `Downloader.releases`: image file name,
archive file name, reference MD5 of the compressed archive and of the
decompressed image. -/
structure RelInfo where
  imgname : String
  archname : String
  archmd5 : String
  imgmd5 : String
  deriving DecidableEq, Repr

/-- `Downloader.releases` (kuiperdldriver.py lines 28-52); an unknown
release raises, modelled as `none`. -/
def releases (release : String) : Option RelInfo :=
  if release = "2018_R2" then
    some ⟨"2018_R2-2019_05_23.img", "2018_R2-2019_05_23.img.xz",
      "c377ca95209f0f3d6901fd38ef2b4dfd", "59c2fe68118c3b635617e36632f5db0b"⟩
  else if release = "2019_R1" then
    some ⟨"2019_R1-2020_02_04.img", "2019_R1-2020_02_04.img.xz",
      "49c121d5e7072ab84760fed78812999f", "40aa0cd80144a205fc018f479eff5fce"⟩
  else if release = "2023_R2_P1" then
    some ⟨"image_2025-03-18-ADI-Kuiper-full", "image_2025-03-18-ADI-Kuiper-full.zip",
      "6c92259dd61520d08244012f6c92d7c6", "873b4977617e40725025aa4958f3ca7e"⟩
  else none

/-- Actual MD5 hashes of what the download and the extraction produced on
disk in this run (the values `Downloader.check` computes). -/
structure DiskEnv where
  archMd5 : String
  imgMd5 : String
  deriving DecidableEq, Repr

/-- `KuiperDLDriver.check_cached` (kuiperdldriver.py lines 187-216): the
release is cached iff the index file exists, lists the version, and the
referenced `image_path` still exists on disk (`os.path.exists`). -/
def check_cached (v : String) (fs : FS) : Bool :=
  match fs.index with
  | none => false
  | some data =>
    match lookupEntry v data with
    | none => false
    | some p => decide (p ∈ fs.files)

/-- The cache directory (`self.kuiper_resource.cache_path`), fixed for the
theorems below. -/
def kcp : String := "kcache"

/-- `KuiperDLDriver.download_release` (kuiperdldriver.py lines 219-298).
Steps in source order: cache check with early return; the
`get_boot_files=True` branch raises `NotImplementedError` before any
network transfer or index write; otherwise download the archive (into the
working directory, under its bare name), check its MD5, extract the image,
check the image MD5 (`find_img=True` locates the image inside an extracted
directory), move the image into the cache, remove the intermediate archive,
and finally read-modify-write the `cache_info.json` index. -/
def download_release (v : String) (getBootFiles : Bool) (env : DiskEnv)
    (fs : FS) : FS × Option DErr :=
  if check_cached v fs then (fs, none)
  else if getBootFiles then (fs, some .notImplemented)
  else
    match releases v with
    | none => (fs, some .unknownRelease)
    | some rel =>
      let fs1 : FS :=
        { fs with files := fs.files.insert rel.archname,
                  downloadCount := fs.downloadCount + 1 }
      if env.archMd5 ≠ rel.archmd5 then (fs1, some .md5Failed)
      else
        let fs2 : FS := { fs1 with files := fs1.files.insert rel.imgname }
        if env.imgMd5 ≠ rel.imgmd5 then (fs2, some .md5Failed)
        else
          let target := kcp ++ "/" ++ rel.imgname
          let fs3 : FS :=
            { fs2 with files := (fs2.files.erase rel.imgname).insert target }
          let fs4 : FS :=
            { fs3 with files :=
                (fs3.files.erase (kcp ++ "/" ++ rel.archname)).erase rel.archname }
          let fs5 : FS :=
            { fs4 with index := some (setEntry v target (fs4.index.getD [])) }
          (fs5, none)

/-- `KuiperDLDriver.get_boot_files_from_release` (kuiperdldriver.py lines
308-359): if the release is not cached, delegate to
`download_release(get_boot_files=True)`; an exception there propagates.
Otherwise open the cached image and extract the boot-file manifest — that
part touches the image-partition parser (`IMGFileExtractor`, not under
`src/`), so it is passed in as the abstract continuation `extract`. -/
def get_boot_files_from_release (v : String)
    (extract : FS → FS × Option DErr) (env : DiskEnv) (fs : FS) :
    FS × Option DErr :=
  let r := if check_cached v fs then (fs, none)
           else download_release v true env fs
  match r with
  | (fs1, none) => extract fs1
  | (fs1, some e) => (fs1, some e)

/-!
File-operation-level model of the index update (kuiperdldriver.py lines
282-296), used to examine its atomicity.  The source performs

    with open(cache_file_path, "w") as f:
        json.dump(cache_data, f, indent=4)

i.e. a truncating open of the index file itself followed by the data write
— no temporary file and no rename.  `WStep` is the vocabulary of file
operations such an update could use (including `renameFile`, which the
source never emits); a crash/interruption is modelled by applying only a
prefix of the step list.
-/

/-- Possible content of one file during an index update: missing, truncated
to empty (the state right after `open(path, "w")`), or completely written. -/
inductive FileContent where
  | absent
  | empty
  | complete (d : IndexData)
  deriving DecidableEq, Repr

/-- File operations an index-update sequence may consist of. -/
inductive WStep where
  | openTrunc (p : String)
  | writeData (p : String) (d : IndexData)
  | closeFile (p : String)
  | renameFile (src dst : String)
  deriving DecidableEq, Repr

/-- A small store: path → file content. -/
abbrev Store := List (String × FileContent)

def getFile (st : Store) (p : String) : FileContent :=
  match st with
  | [] => .absent
  | (q, c) :: rest => if q = p then c else getFile rest p

def setFile (p : String) (c : FileContent) : Store → Store
  | [] => [(p, c)]
  | (q, x) :: rest => if q = p then (p, c) :: rest else (q, x) :: setFile p c rest

def applyWStep (st : Store) : WStep → Store
  | .openTrunc p => setFile p .empty st
  | .writeData p d => setFile p (.complete d) st
  | .closeFile _ => st
  | .renameFile src dst => setFile dst (getFile st src) (setFile src .absent st)

def runWSteps (st : Store) (steps : List WStep) : Store :=
  steps.foldl applyWStep st

/-- The file operations the source's index update performs (kuiperdldriver.py
lines 295-296): truncating open of `cache_info.json` in place, one data
write, close.  No temporary file, no rename. -/
def updateIndexSteps (indexPath : String) (d : IndexData) : List WStep :=
  [.openTrunc indexPath, .writeData indexPath d, .closeFile indexPath]

/-- Reading the index back (`json.load`): only a completely written file
parses; an empty/truncated or missing file does not yield any entries. -/
def readIndexFile (st : Store) (p : String) : Option IndexData :=
  match getFile st p with
  | .complete d => some d
  | _ => none

def isRenameStep : WStep → Bool
  | .renameFile _ _ => true
  | _ => false

/-- Specification of one `transition` call used in the fail-stop proof: on
normal return the state is the requested target; on a raised error the
state is either untouched or one of the proper iterated predecessors of the
target (the last successfully completed state), and — provided the call was
not a skip — never the target itself. -/
def TransSpec {σ : Type} (pl : σ → List σ) (s : σ) (w w' : W σ)
    (r : Option SErr) : Prop :=
  (r = none → w'.status = s) ∧
  (r ≠ none → (w'.status = w.status ∨ w'.status ∈ pl s) ∧
    (w.status ≠ s → w'.status ≠ s))

/-- A branch body preserves the `status` field (only the trailing
`self.status = status` assignment writes it). -/
def StatusPres {σ : Type} (f : W σ → W σ × Option SErr) : Prop :=
  ∀ w w' r, f w = (w', r) → w'.status = w.status

theorem doOp_envTrue {σ : Type} (o : Opr) (w : W σ) :
    doOp envTrue o w = (att o w, none) := by
  cases o <;> rfl

theorem runOps_envTrue {σ : Type} (l : List Opr) (w : W σ) :
    runOps envTrue l w = (⟨w.status, w.trace ++ l⟩, none) := by
  induction l generalizing w with
  | nil => simp [runOps]
  | cons o rest ih =>
    simp [runOps, doOp_envTrue, ih, att, List.append_assoc]

theorem doOp_fst {σ : Type} (env : Oracle) (o : Opr) (w : W σ) :
    (doOp env o w).1 = att o w := by
  cases o <;> simp only [doOp] <;> (first | rfl | (split <;> rfl))

theorem runOps_status {σ : Type} (env : Oracle) (l : List Opr) (w w1 : W σ)
    (r : Option SErr) (h : runOps env l w = (w1, r)) : w1.status = w.status := by
  induction l generalizing w with
  | nil =>
    simp [runOps] at h
    rw [← h.1]
  | cons o rest ih =>
    rw [runOps] at h
    rcases ho : doOp env o w with ⟨w2, r2⟩
    rw [ho] at h
    have hst : w2.status = w.status := by
      have hf := doOp_fst env o w
      rw [ho] at hf
      simp at hf
      rw [hf]
      rfl
    cases r2 with
    | none => exact (ih w2 h).trans hst
    | some e =>
      simp at h
      rw [← h.1]
      exact hst

theorem tryOps_status {σ : Type} (env : Oracle) (a b : List Opr) (w w1 : W σ)
    (r : Option SErr) (h : tryOps env a b w = (w1, r)) : w1.status = w.status := by
  rw [tryOps] at h
  rcases ha : runOps env a w with ⟨w2, r2⟩
  rw [ha] at h
  cases r2 with
  | none =>
    simp at h
    rw [← h.1]
    exact runOps_status env a w w2 none ha
  | some e =>
    have h2 := runOps_status env b w2 w1 r h
    have h1 := runOps_status env a w w2 (some e) ha
    rw [h2, h1]

theorem statusPres_runOps {σ : Type} (env : Oracle) (l : List Opr) :
    StatusPres (σ := σ) (runOps env l) :=
  fun w w' r h => runOps_status env l w w' r h

theorem statusPres_tryOps {σ : Type} (env : Oracle) (a b : List Opr) :
    StatusPres (σ := σ) (tryOps env a b) :=
  fun w w' r h => tryOps_status env a b w w' r h

theorem statusPres_wbind {σ : Type} {f g : W σ → W σ × Option SErr}
    (hf : StatusPres f) (hg : StatusPres g) :
    StatusPres (fun w => wbind (f w) g) := by
  intro w w' r h
  dsimp only at h
  rcases hx : f w with ⟨w1, r1⟩
  rw [hx] at h
  cases r1 with
  | none =>
    simp only [wbind] at h
    exact (hg w1 w' r h).trans (hf w w1 none hx)
  | some e =>
    simp only [wbind] at h
    rw [Prod.mk.injEq] at h
    obtain ⟨rfl, -⟩ := h
    exact hf w w1 (some e) hx

theorem statusPres_ite {σ : Type} (c : Bool) {f : W σ → W σ × Option SErr}
    (hf : StatusPres f) (e : SErr) :
    StatusPres (fun w => if c then f w else (w, some e)) := by
  intro w w' r h
  dsimp only at h
  by_cases hc : c = true
  · rw [if_pos hc] at h
    exact hf w w' r h
  · rw [if_neg hc] at h
    rw [Prod.mk.injEq] at h
    obtain ⟨rfl, -⟩ := h
    rfl

theorem transSpec_base {σ : Type} (pl : σ → List σ) (s : σ)
    (body : W σ → W σ × Option SErr) (hbody : StatusPres body)
    (w w' : W σ) (r : Option SErr)
    (h : finishStep s (body w) = (w', r)) : TransSpec pl s w w' r := by
  rcases hb : body w with ⟨w2, r2⟩
  rw [hb] at h
  cases r2 with
  | none =>
    simp only [finishStep] at h
    rw [Prod.mk.injEq] at h
    obtain ⟨rfl, rfl⟩ := h
    exact And.intro (fun _ => rfl) (fun hr => absurd rfl hr)
  | some e =>
    simp only [finishStep] at h
    rw [Prod.mk.injEq] at h
    obtain ⟨rfl, rfl⟩ := h
    refine And.intro (fun hn => nomatch hn) (fun _ => And.intro (Or.inl (hbody w w2 (some e) hb)) ?_)
    intro hws
    rw [hbody w w2 (some e) hb]
    exact hws

theorem transSpec_branch {σ : Type} (pl : σ → List σ) (rk : σ → Nat)
    (hrk : ∀ s t, t ∈ pl s → rk t < rk s)
    (p s : σ) (hs : pl s = p :: pl p)
    (recur : W σ → W σ × Option SErr)
    (hrec : ∀ w w' r, recur w = (w', r) → TransSpec pl p w w' r)
    (body : W σ → W σ × Option SErr) (hbody : StatusPres body)
    (w w' : W σ) (r : Option SErr)
    (h : finishStep s (wbind (recur w) body) = (w', r)) :
    TransSpec pl s w w' r := by
  have hmem : p ∈ pl s := by
    rw [hs]
    exact List.mem_cons_self p (pl p)
  have hps : rk p < rk s := hrk s p hmem
  rcases hr1 : recur w with ⟨w1, r1⟩
  rw [hr1] at h
  cases r1 with
  | some e =>
    simp only [wbind, finishStep] at h
    rw [Prod.mk.injEq] at h
    obtain ⟨rfl, rfl⟩ := h
    have hspec := (hrec w w1 (some e) hr1).2 (by simp)
    refine And.intro (fun hn => nomatch hn) (fun _ => And.intro ?_ ?_)
    · rcases hspec.1 with hl | hm
      · exact Or.inl hl
      · refine Or.inr ?_
        rw [hs]
        exact List.mem_cons_of_mem p hm
    · intro hws
      rcases hspec.1 with hl | hm
      · rw [hl]
        exact hws
      · intro hcon
        have h1 := hrk p w1.status hm
        rw [hcon] at h1
        exact absurd (Nat.lt_trans h1 hps) (Nat.lt_irrefl _)
  | none =>
    have hw1 : w1.status = p := (hrec w w1 none hr1).1 rfl
    simp only [wbind] at h
    rcases hb : body w1 with ⟨w2, r2⟩
    rw [hb] at h
    cases r2 with
    | none =>
      simp only [finishStep] at h
      rw [Prod.mk.injEq] at h
      obtain ⟨rfl, rfl⟩ := h
      exact And.intro (fun _ => rfl) (fun hr => absurd rfl hr)
    | some e =>
      simp only [finishStep] at h
      rw [Prod.mk.injEq] at h
      obtain ⟨rfl, rfl⟩ := h
      have hw2 : w2.status = p := (hbody w1 w2 (some e) hb).trans hw1
      refine And.intro (fun hn => nomatch hn) (fun _ => And.intro (Or.inr ?_) ?_)
      · rw [hw2, hs]
        exact List.mem_cons_self p (pl p)
      · intro hws hcon
        rw [hw2] at hcon
        rw [hcon] at hps
        exact Nat.lt_irrefl _ hps

theorem socPredListRank :
    ∀ s t, t ∈ BootFPGASoC.predList s →
      BootFPGASoC.rank t < BootFPGASoC.rank s := by
  intro s t
  cases s <;> cases t <;> simp [BootFPGASoC.predList, BootFPGASoC.rank]

theorem socTransSpec :
    ∀ (fuel : Nat) (cfg : BootFPGASoC.Config) (env : Oracle)
      (s : BootFPGASoC.Status) (w w' : W BootFPGASoC.Status) (r : Option SErr),
      BootFPGASoC.transition cfg env fuel s w = (w', r) →
      TransSpec BootFPGASoC.predList s w w' r := by
  intro fuel
  induction fuel with
  | zero =>
    intro cfg env s w w' r h
    simp only [BootFPGASoC.transition] at h
    rw [Prod.mk.injEq] at h
    obtain ⟨rfl, rfl⟩ := h
    exact And.intro (fun hn => nomatch hn) (fun _ => And.intro (Or.inl rfl) (fun hws => hws))
  | succ fuel ih =>
    intro cfg env s w w' r h
    simp only [BootFPGASoC.transition] at h
    by_cases h0 : s = BootFPGASoC.Status.unknown
    · rw [if_pos h0] at h
      rw [Prod.mk.injEq] at h
      obtain ⟨rfl, rfl⟩ := h
      exact And.intro (fun hn => nomatch hn) (fun _ => And.intro (Or.inl rfl) (fun hws => hws))
    · rw [if_neg h0] at h
      by_cases h1 : s = w.status
      · rw [if_pos h1] at h
        rw [Prod.mk.injEq] at h
        obtain ⟨rfl, rfl⟩ := h
        exact And.intro (fun _ => h1.symm) (fun hr => absurd rfl hr)
      · rw [if_neg h1] at h
        cases s with
        | unknown => exact absurd rfl h0
        | powered_off =>
          exact transSpec_base BootFPGASoC.predList .powered_off
            (runOps env [.deactivate .shell, .activate .power, .powerOff])
            (statusPres_runOps env _) w w' r h
        | sd_mux_to_host =>
          exact transSpec_branch BootFPGASoC.predList BootFPGASoC.rank
            socPredListRank .powered_off .sd_mux_to_host rfl
            (BootFPGASoC.transition cfg env fuel .powered_off)
            (fun w w' r hh => ih cfg env .powered_off w w' r hh)
            (runOps env [.activate .sdmux, .setMode "host", .sleep 5])
            (statusPres_runOps env _) w w' r h
        | update_boot_files =>
          exact transSpec_branch BootFPGASoC.predList BootFPGASoC.rank
            socPredListRank .sd_mux_to_host .update_boot_files rfl
            (BootFPGASoC.transition cfg env fuel .sd_mux_to_host)
            (fun w w' r hh => ih cfg env .sd_mux_to_host w w' r hh)
            (fun w1 => runOps env
              ((if cfg.imageWriter && cfg.updateImage then
                  [.activate .imageWriter, .writeImage, .deactivate .imageWriter]
                else []) ++
               [.activate .massStorage, .mountPartition] ++
               cfg.bootFiles.map (fun f => .copyFile f "/") ++
               [.unmountPartition, .deactivate .massStorage]) w1)
            (fun w w' r hh => runOps_status env _ w w' r hh) w w' r h
        | sd_mux_to_dut =>
          exact transSpec_branch BootFPGASoC.predList BootFPGASoC.rank
            socPredListRank .update_boot_files .sd_mux_to_dut rfl
            (BootFPGASoC.transition cfg env fuel .update_boot_files)
            (fun w w' r hh => ih cfg env .update_boot_files w w' r hh)
            (runOps env [.setMode "dut", .sleep 5])
            (statusPres_runOps env _) w w' r h
        | booting =>
          exact transSpec_branch BootFPGASoC.predList BootFPGASoC.rank
            socPredListRank .sd_mux_to_dut .booting rfl
            (BootFPGASoC.transition cfg env fuel .sd_mux_to_dut)
            (fun w w' r hh => ih cfg env .sd_mux_to_dut w w' r hh)
            (runOps env [.activate .power, .sleep 5, .powerOn])
            (statusPres_runOps env _) w w' r h
        | booted =>
          exact transSpec_branch BootFPGASoC.predList BootFPGASoC.rank
            socPredListRank .booting .booted rfl
            (BootFPGASoC.transition cfg env fuel .booting)
            (fun w w' r hh => ih cfg env .booting w w' r hh)
            (runOps env [.activate .shell, .expectConsole "Linux",
              .expectConsole cfg.reachedLinuxMarker, .deactivate .shell])
            (statusPres_runOps env _) w w' r h
        | shell =>
          exact transSpec_branch BootFPGASoC.predList BootFPGASoC.rank
            socPredListRank .booted .shell rfl
            (BootFPGASoC.transition cfg env fuel .booted)
            (fun w w' r hh => ih cfg env .booted w w' r hh)
            (runOps env [.activate .shell])
            (statusPres_runOps env _) w w' r h
        | soft_off =>
          exact transSpec_branch BootFPGASoC.predList BootFPGASoC.rank
            socPredListRank .shell .soft_off rfl
            (BootFPGASoC.transition cfg env fuel .shell)
            (fun w w' r hh => ih cfg env .shell w w' r hh)
            (fun w1 => wbind
              (tryOps env
                [.sendline "poweroff", .expectConsole ".*Power down.*",
                 .deactivate .shell, .sleep 10]
                [.sleep 5, .deactivate .shell] w1)
              (runOps env [.activate .power, .powerOff]))
            (statusPres_wbind (statusPres_tryOps env _ _)
              (statusPres_runOps env _)) w w' r h

theorem sshPredListRank :
    ∀ s t, t ∈ BootFPGASoCSSH.predList s →
      BootFPGASoCSSH.rank t < BootFPGASoCSSH.rank s := by
  intro s t
  cases s <;> cases t <;> simp [BootFPGASoCSSH.predList, BootFPGASoCSSH.rank]

theorem sshTransSpec :
    ∀ (fuel : Nat) (cfg : BootFPGASoCSSH.Config) (env : Oracle)
      (s : BootFPGASoCSSH.Status) (w w' : W BootFPGASoCSSH.Status)
      (r : Option SErr),
      BootFPGASoCSSH.transition cfg env fuel s w = (w', r) →
      TransSpec BootFPGASoCSSH.predList s w w' r := by
  intro fuel
  induction fuel with
  | zero =>
    intro cfg env s w w' r h
    simp only [BootFPGASoCSSH.transition] at h
    rw [Prod.mk.injEq] at h
    obtain ⟨rfl, rfl⟩ := h
    exact And.intro (fun hn => nomatch hn) (fun _ => And.intro (Or.inl rfl) (fun hws => hws))
  | succ fuel ih =>
    intro cfg env s w w' r h
    simp only [BootFPGASoCSSH.transition] at h
    by_cases h0 : s = BootFPGASoCSSH.Status.unknown
    · rw [if_pos h0] at h
      rw [Prod.mk.injEq] at h
      obtain ⟨rfl, rfl⟩ := h
      exact And.intro (fun hn => nomatch hn) (fun _ => And.intro (Or.inl rfl) (fun hws => hws))
    · rw [if_neg h0] at h
      by_cases h1 : s = w.status
      · rw [if_pos h1] at h
        rw [Prod.mk.injEq] at h
        obtain ⟨rfl, rfl⟩ := h
        exact And.intro (fun _ => h1.symm) (fun hr => absurd rfl hr)
      · rw [if_neg h1] at h
        cases s with
        | unknown => exact absurd rfl h0
        | powered_off =>
          exact transSpec_base BootFPGASoCSSH.predList .powered_off
            (runOps env
              ([.deactivate .shell] ++
               (if cfg.power then [.activate .power, .powerOff] else [])))
            (statusPres_runOps env _) w w' r h
        | booting =>
          exact transSpec_branch BootFPGASoCSSH.predList BootFPGASoCSSH.rank
            sshPredListRank .powered_off .booting rfl
            (BootFPGASoCSSH.transition cfg env fuel .powered_off)
            (fun w w' r hh => ih cfg env .powered_off w w' r hh)
            (runOps env
              (if cfg.power then [.activate .power, .sleep 5, .powerOn] else []))
            (statusPres_runOps env _) w w' r h
        | booted =>
          exact transSpec_branch BootFPGASoCSSH.predList BootFPGASoCSSH.rank
            sshPredListRank .booting .booted rfl
            (BootFPGASoCSSH.transition cfg env fuel .booting)
            (fun w w' r hh => ih cfg env .booting w w' r hh)
            (runOps env
              (if cfg.power then
                 [.activate .shell, .expectConsole "Linux",
                  .expectConsole cfg.hostname, .deactivate .shell]
               else []))
            (statusPres_runOps env _) w w' r h
        | update_boot_files =>
          exact transSpec_branch BootFPGASoCSSH.predList BootFPGASoCSSH.rank
            sshPredListRank .booted .update_boot_files rfl
            (BootFPGASoCSSH.transition cfg env fuel .booted)
            (fun w w' r hh => ih cfg env .booted w w' r hh)
            (runOps env
              ([.activate .shell, .getIp "eth0", .deactivate .shell,
                .activate .ssh] ++
               (if cfg.kuiper then
                  cfg.bootFiles.map (fun f => .sshPut f "/boot/")
                else []) ++
               [.deactivate .ssh]))
            (statusPres_runOps env _) w w' r h
        | reboot =>
          exact transSpec_branch BootFPGASoCSSH.predList BootFPGASoCSSH.rank
            sshPredListRank .update_boot_files .reboot rfl
            (BootFPGASoCSSH.transition cfg env fuel .update_boot_files)
            (fun w w' r hh => ih cfg env .update_boot_files w w' r hh)
            (fun w1 => wbind (runOps env [.activate .shell] w1) (fun w2 =>
              wbind (tryOps env [.runCmd "reboot"] [] w2)
                (runOps env [.deactivate .shell])))
            (statusPres_wbind (statusPres_runOps env _)
              (statusPres_wbind (statusPres_tryOps env _ _)
                (statusPres_runOps env _))) w w' r h
        | booting_new =>
          exact transSpec_branch BootFPGASoCSSH.predList BootFPGASoCSSH.rank
            sshPredListRank .reboot .booting_new rfl
            (BootFPGASoCSSH.transition cfg env fuel .reboot)
            (fun w w' r hh => ih cfg env .reboot w w' r hh)
            (runOps env [.activate .shell, .expectConsole "Linux",
              .expectConsole cfg.hostname, .deactivate .shell])
            (statusPres_runOps env _) w w' r h
        | shell =>
          exact transSpec_branch BootFPGASoCSSH.predList BootFPGASoCSSH.rank
            sshPredListRank .booting_new .shell rfl
            (BootFPGASoCSSH.transition cfg env fuel .booting_new)
            (fun w w' r hh => ih cfg env .booting_new w w' r hh)
            (runOps env [.activate .shell])
            (statusPres_runOps env _) w w' r h
        | soft_off =>
          exact transSpec_branch BootFPGASoCSSH.predList BootFPGASoCSSH.rank
            sshPredListRank .shell .soft_off rfl
            (BootFPGASoCSSH.transition cfg env fuel .shell)
            (fun w w' r hh => ih cfg env .shell w w' r hh)
            (fun w1 => wbind
              (tryOps env
                [.runCmd "poweroff", .expectConsole "Power down",
                 .deactivate .shell, .sleep 10]
                [.sleep 5, .deactivate .shell] w1)
              (fun w2 =>
                if cfg.power then
                  runOps env [.activate .power, .powerOff] w2
                else (w2, some .noneDeref)))
            (statusPres_wbind (statusPres_tryOps env _ _)
              (statusPres_ite cfg.power (statusPres_runOps env _) .noneDeref))
            w w' r h

theorem lookupEntry_setEntry_self (v p : String) (l : IndexData) :
    lookupEntry v (setEntry v p l) = some p := by
  induction l with
  | nil => simp [setEntry, lookupEntry]
  | cons kv rest ih =>
    rcases kv with ⟨k, x⟩
    by_cases hk : k = v
    · simp [setEntry, hk, lookupEntry]
    · simp [setEntry, hk, lookupEntry, ih]

theorem lookupEntry_setEntry_ne (v p v' : String) (l : IndexData) (h : v' ≠ v) :
    lookupEntry v' (setEntry v p l) = lookupEntry v' l := by
  have hvv : ¬v = v' := fun hh => h hh.symm
  induction l with
  | nil => simp [setEntry, lookupEntry, hvv]
  | cons kv rest ih =>
    rcases kv with ⟨k, x⟩
    by_cases hk : k = v
    · subst hk
      simp [setEntry, lookupEntry, hvv]
    · simp [setEntry, hk, lookupEntry, ih]

theorem check_cached_after_update (v t : String) (l : List String)
    (d : IndexData) (n : Nat) (c a : String) (ht1 : t ≠ c) (ht2 : t ≠ a) :
    check_cached v ⟨((l.insert t).erase c).erase a, some (setEntry v t d), n⟩ = true := by
  simp only [check_cached, lookupEntry_setEntry_self]
  apply decide_eq_true
  exact (List.mem_erase_of_ne ht2).2 ((List.mem_erase_of_ne ht1).2 (List.mem_insert_self t l))

theorem releases_names (v : String) (rel : RelInfo) (h : releases v = some rel) :
    (kcp ++ "/" ++ rel.imgname) ≠ (kcp ++ "/" ++ rel.archname) ∧
    (kcp ++ "/" ++ rel.imgname) ≠ rel.archname := by
  unfold releases at h
  split_ifs at h
  · injection h with h1; subst h1; exact ⟨by decide, by decide⟩
  · injection h with h1; subst h1; exact ⟨by decide, by decide⟩
  · injection h with h1; subst h1; exact ⟨by decide, by decide⟩

/-- Claim C1: fail-stop of `BootFPGASoC.transition` and
`BootFPGASoCSSH.transition`.  For every oracle, configuration, fuel, target
state S and starting world with current state ≠ S: if the call raises
(returns `some e`), the resulting state is never S — it is either the
starting state or one of S's proper iterated predecessors (the last
successfully completed state of the chain); if the call returns normally,
the resulting state is exactly S.  The `status` field is thus assigned only
after the whole action body for S completed without error, and errors are
propagated as the very value that the failing step produced (`wbind` and
`finishStep` return them unchanged). -/
theorem C1_fail_stop :
    (∀ (cfg : BootFPGASoC.Config) (env : Oracle) (fuel : Nat)
       (s : BootFPGASoC.Status) (w w' : W BootFPGASoC.Status) (e : SErr),
       BootFPGASoC.transition cfg env fuel s w = (w', some e) → w.status ≠ s →
         w'.status ≠ s ∧
           (w'.status = w.status ∨ w'.status ∈ BootFPGASoC.predList s)) ∧
    (∀ (cfg : BootFPGASoC.Config) (env : Oracle) (fuel : Nat)
       (s : BootFPGASoC.Status) (w w' : W BootFPGASoC.Status),
       BootFPGASoC.transition cfg env fuel s w = (w', none) → w'.status = s) ∧
    (∀ (cfg : BootFPGASoCSSH.Config) (env : Oracle) (fuel : Nat)
       (s : BootFPGASoCSSH.Status) (w w' : W BootFPGASoCSSH.Status) (e : SErr),
       BootFPGASoCSSH.transition cfg env fuel s w = (w', some e) → w.status ≠ s →
         w'.status ≠ s ∧
           (w'.status = w.status ∨ w'.status ∈ BootFPGASoCSSH.predList s)) ∧
    (∀ (cfg : BootFPGASoCSSH.Config) (env : Oracle) (fuel : Nat)
       (s : BootFPGASoCSSH.Status) (w w' : W BootFPGASoCSSH.Status),
       BootFPGASoCSSH.transition cfg env fuel s w = (w', none) → w'.status = s) := by
  refine ⟨?_, ?_, ?_, ?_⟩
  · intro cfg env fuel s w w' e h hws
    have hs := (socTransSpec fuel cfg env s w w' (some e) h).2 (by simp)
    exact ⟨hs.2 hws, hs.1⟩
  · intro cfg env fuel s w w' h
    exact (socTransSpec fuel cfg env s w w' none h).1 rfl
  · intro cfg env fuel s w w' e h hws
    have hs := (sshTransSpec fuel cfg env s w w' (some e) h).2 (by simp)
    exact ⟨hs.2 hws, hs.1⟩
  · intro cfg env fuel s w w' h
    exact (sshTransSpec fuel cfg env s w w' none h).1 rfl

/-- Witness for C1: with an oracle failing from the fourth operation on,
`transition(sd_mux_to_host)` from `unknown` completes `powered_off`, then
fails activating the SD mux; the state stays at `powered_off` — the
predecessor of the target, never the target. -/
theorem C1_fail_stop_witness :
    (W.mk BootFPGASoC.Status.powered_off
      [Opr.deactivate .shell, .activate .power, .powerOff,
       .activate .sdmux]).status ≠ BootFPGASoC.Status.sd_mux_to_host ∧
    ((W.mk BootFPGASoC.Status.powered_off
      [Opr.deactivate .shell, .activate .power, .powerOff,
       .activate .sdmux]).status =
        (W.mk BootFPGASoC.Status.unknown []).status ∨
     (W.mk BootFPGASoC.Status.powered_off
      [Opr.deactivate .shell, .activate .power, .powerOff,
       .activate .sdmux]).status ∈
        BootFPGASoC.predList .sd_mux_to_host) :=
  C1_fail_stop.1 ⟨[], "analog", false, false⟩ (fun n => decide (n < 3)) 9
    .sd_mux_to_host ⟨.unknown, []⟩
    ⟨.powered_off, [.deactivate .shell, .activate .power, .powerOff,
      .activate .sdmux]⟩
    (.opFailed (.activate .sdmux)) (by decide) (by decide)

/-- Claim C2 counterexample: `transition(unknown)` when the current state is
already `unknown` does not return normally — the `status == Status.unknown`
rejection (bootfpgasoc.py line 120) is checked before the idempotent-skip
branch (line 122), so the call raises `StrategyError` even though target and
current state coincide.  (It does perform zero external operations and
leaves the state unchanged; only "returns normally" fails.) -/
theorem C2_skip_counterexample :
    BootFPGASoC.transition ⟨[], "analog", false, false⟩ envTrue 9 .unknown
      ⟨.unknown, []⟩ = (⟨.unknown, []⟩, some .strategyError) := rfl

/-- Claim C2 amended: for every state S other than the sentinel `unknown`,
calling `transition(S)` when the current state already equals S performs
zero external operations (the trace is unchanged), leaves the state
unchanged, and returns normally — for both `BootFPGASoC` and `BootFabric`. -/
theorem C2_skip_amended :
    (∀ (cfg : BootFPGASoC.Config) (env : Oracle) (fuel : Nat)
       (s : BootFPGASoC.Status) (w : W BootFPGASoC.Status),
       s ≠ .unknown → w.status = s →
       BootFPGASoC.transition cfg env (fuel + 1) s w = (w, none)) ∧
    (∀ (cfg : BootFabric.Config) (env found : Oracle) (fuel : Nat)
       (s : BootFabric.Status) (w : W BootFabric.Status),
       s ≠ .unknown → w.status = s →
       BootFabric.transition cfg env found (fuel + 1) s w = (w, none)) := by
  constructor
  · intro cfg env fuel s w hs hw
    simp only [BootFPGASoC.transition]
    rw [if_neg hs, if_pos hw.symm]
  · intro cfg env found fuel s w hs hw
    simp only [BootFabric.transition]
    rw [if_neg hs, if_pos hw.symm]

/-- Witness for C2 amended: requesting `shell` while already at `shell` is a
no-op. -/
theorem C2_skip_amended_witness :
    BootFPGASoC.transition ⟨[], "analog", false, false⟩ envTrue 9 .shell
      ⟨.shell, []⟩ = (⟨.shell, []⟩, none) :=
  C2_skip_amended.1 ⟨[], "analog", false, false⟩ envTrue 8 .shell ⟨.shell, []⟩
    (by decide) rfl

/-- Claim C3: prerequisite chain of `BootFPGASoC`.  From `unknown`, with
`update_image = False` (any `image_writer` binding) and every operation
succeeding, a single `transition("shell")` produces exactly this operation
trace — power-off, mux-to-host, one copy per boot file, mux-to-dut,
power-on, console-expect of "Linux", console-expect of the
reached-linux marker, shell activation, in that order, each intermediate
state's action exactly once — and terminates in state `shell`.  (The
`booted` step wraps its two console expects in a shell
activate/deactivate pair, shown in the trace.) -/
theorem C3_prereq_chain :
    ∀ (bf : List String) (marker : String) (iw : Bool),
      BootFPGASoC.transition ⟨bf, marker, false, iw⟩ envTrue 9 .shell
        ⟨.unknown, []⟩ =
      (⟨.shell,
        [.deactivate .shell, .activate .power, .powerOff,
         .activate .sdmux, .setMode "host", .sleep 5,
         .activate .massStorage, .mountPartition] ++
        bf.map (fun f => .copyFile f "/") ++
        [.unmountPartition, .deactivate .massStorage,
         .setMode "dut", .sleep 5,
         .activate .power, .sleep 5, .powerOn,
         .activate .shell, .expectConsole "Linux", .expectConsole marker,
         .deactivate .shell,
         .activate .shell]⟩, none) := by
  intro bf marker iw
  simp [BootFPGASoC.transition, runOps_envTrue, wbind, finishStep, Bool.and_false]

/-- Claim C4 (code bug evaluation): a `BootFPGASoCSSH` instance with the
optional `power` binding unset behaves as documented for the guarded
branches — e.g. `transition(powered_off)` skips the power operations and
succeeds — but `transition(soft_off)` from `shell` dereferences the absent
power handle (`self.target.activate(self.power); self.power.off()`,
bootfpgasocssh.py lines 174-175, with no `if self.power:` guard) and
raises after the in-band shutdown attempt, leaving the state at `shell`. -/
theorem C4_soft_off_none_power :
    BootFPGASoCSSH.transition ⟨false, true, [], "analog"⟩ envTrue 9
      .powered_off ⟨.shell, []⟩ =
      (⟨.powered_off, [.deactivate .shell]⟩, none) ∧
    BootFPGASoCSSH.transition ⟨false, true, [], "analog"⟩ envTrue 9
      .soft_off ⟨.shell, []⟩ =
      (⟨.shell, [.runCmd "poweroff", .expectConsole "Power down",
        .deactivate .shell, .sleep 10]⟩, some .noneDeref) :=
  ⟨rfl, rfl⟩

/-- Claim C9: graceful-shutdown fallback of `BootFPGASoC.soft_off` from
state `shell`.  First conjunct: when the in-band sequence succeeds, the
transition sends `poweroff`, waits for the power-down marker, deactivates
the shell, then hard-powers off, ending at `soft_off`.  Second conjunct:
when the operation at any position k of the fallible in-band prefix
(`sendline`, expect, shell deactivate) raises, the exception is swallowed,
the handler still deactivates the shell, the hard power-off runs anyway,
and the transition ends at `soft_off`. -/
theorem C9_soft_off_fallback :
    (∀ cfg : BootFPGASoC.Config,
      BootFPGASoC.transition cfg envTrue 9 .soft_off ⟨.shell, []⟩ =
        (⟨.soft_off, [.sendline "poweroff", .expectConsole ".*Power down.*",
          .deactivate .shell, .sleep 10, .activate .power, .powerOff]⟩, none)) ∧
    (∀ (cfg : BootFPGASoC.Config) (k : Nat), k < 3 →
      BootFPGASoC.transition cfg (envFailAt k) 9 .soft_off ⟨.shell, []⟩ =
        (⟨.soft_off,
          ([Opr.sendline "poweroff", .expectConsole ".*Power down.*",
            .deactivate .shell].take (k + 1)) ++
          [.sleep 5, .deactivate .shell, .activate .power, .powerOff]⟩, none)) := by
  constructor
  · intro cfg
    rfl
  · intro cfg k hk
    interval_cases k
    · rfl
    · rfl
    · rfl

/-- Witness for C9: the in-band expect of the power-down marker (position 1)
fails, the failure is swallowed, and the hard power-off still runs. -/
theorem C9_soft_off_fallback_witness :
    BootFPGASoC.transition ⟨[], "analog", false, false⟩ (envFailAt 1) 9
      .soft_off ⟨.shell, []⟩ =
      (⟨.soft_off,
        ([Opr.sendline "poweroff", .expectConsole ".*Power down.*",
          .deactivate .shell].take 2) ++
        [.sleep 5, .deactivate .shell, .activate .power, .powerOff]⟩, none) :=
  C9_soft_off_fallback.2 ⟨[], "analog", false, false⟩ 1 (by decide)

/-- Claim C5: cache round-trip with stale-entry invalidation.  First
conjunct (all versions, all starting filesystems): after a successful
`download_release`, an immediate second call for the same version is a pure
cache hit returning the same filesystem unchanged — in particular no second
network download.  The remaining conjuncts run the concrete scenario from
an empty cache: the first call for `2019_R1` performs exactly one download
and indexes the image; the second call changes nothing; after deleting the
cached image file the index still lists the version, yet `check_cached`
rejects it and a further call downloads again (count 2). -/
theorem C5_cache_round_trip :
    (∀ (v : String) (env : DiskEnv) (fs fs1 : FS),
        download_release v false env fs = (fs1, none) →
        download_release v false env fs1 = (fs1, none)) ∧
    ((download_release "2019_R1" false
        ⟨"49c121d5e7072ab84760fed78812999f", "40aa0cd80144a205fc018f479eff5fce"⟩
        ⟨[], none, 0⟩).1.downloadCount = 1 ∧
     (download_release "2019_R1" false
        ⟨"49c121d5e7072ab84760fed78812999f", "40aa0cd80144a205fc018f479eff5fce"⟩
        ((download_release "2019_R1" false
          ⟨"49c121d5e7072ab84760fed78812999f", "40aa0cd80144a205fc018f479eff5fce"⟩
          ⟨[], none, 0⟩).1)).1.downloadCount = 1 ∧
     lookupEntry "2019_R1"
       ((((download_release "2019_R1" false
            ⟨"49c121d5e7072ab84760fed78812999f", "40aa0cd80144a205fc018f479eff5fce"⟩
            ⟨[], none, 0⟩).1).index).getD []) = some "kcache/2019_R1-2020_02_04.img" ∧
     check_cached "2019_R1"
       { (download_release "2019_R1" false
           ⟨"49c121d5e7072ab84760fed78812999f", "40aa0cd80144a205fc018f479eff5fce"⟩
           ⟨[], none, 0⟩).1 with
         files := ((download_release "2019_R1" false
           ⟨"49c121d5e7072ab84760fed78812999f", "40aa0cd80144a205fc018f479eff5fce"⟩
           ⟨[], none, 0⟩).1).files.erase "kcache/2019_R1-2020_02_04.img" } = false ∧
     (download_release "2019_R1" false
        ⟨"49c121d5e7072ab84760fed78812999f", "40aa0cd80144a205fc018f479eff5fce"⟩
        { (download_release "2019_R1" false
            ⟨"49c121d5e7072ab84760fed78812999f", "40aa0cd80144a205fc018f479eff5fce"⟩
            ⟨[], none, 0⟩).1 with
          files := ((download_release "2019_R1" false
            ⟨"49c121d5e7072ab84760fed78812999f", "40aa0cd80144a205fc018f479eff5fce"⟩
            ⟨[], none, 0⟩).1).files.erase "kcache/2019_R1-2020_02_04.img" }).1.downloadCount
       = 2) := by
  constructor
  · intro v env fs fs1 h
    by_cases hc : check_cached v fs
    · unfold download_release at h
      rw [if_pos hc] at h
      rw [Prod.mk.injEq] at h
      obtain ⟨rfl, -⟩ := h
      unfold download_release
      rw [if_pos hc]
    · simp only [download_release] at h
      rw [if_neg hc, if_neg (by decide : ¬((false : Bool) = true))] at h
      split at h
      · exact absurd h (by simp)
      · rename_i rel hr
        split at h
        · exact absurd h (by simp)
        · rename_i h1
          split at h
          · exact absurd h (by simp)
          · rename_i h2
            rw [Prod.mk.injEq] at h
            obtain ⟨rfl, -⟩ := h
            obtain ⟨hne1, hne2⟩ := releases_names v rel hr
            have hcc := check_cached_after_update v (kcp ++ "/" ++ rel.imgname)
              (((fs.files.insert rel.archname).insert rel.imgname).erase rel.imgname)
              (fs.index.getD []) (fs.downloadCount + 1)
              (kcp ++ "/" ++ rel.archname) rel.archname hne1 hne2
            simp [download_release, hcc]
  · exact ⟨by decide, by decide, by decide, by decide, by decide⟩

/-- Witness for C5: the general cache-hit conjunct applied to the concrete
first download from an empty cache. -/
theorem C5_cache_round_trip_witness :
    download_release "2019_R1" false
      ⟨"49c121d5e7072ab84760fed78812999f", "40aa0cd80144a205fc018f479eff5fce"⟩
      ((download_release "2019_R1" false
        ⟨"49c121d5e7072ab84760fed78812999f", "40aa0cd80144a205fc018f479eff5fce"⟩
        ⟨[], none, 0⟩).1) =
    ((download_release "2019_R1" false
        ⟨"49c121d5e7072ab84760fed78812999f", "40aa0cd80144a205fc018f479eff5fce"⟩
        ⟨[], none, 0⟩).1, none) :=
  C5_cache_round_trip.1 "2019_R1"
    ⟨"49c121d5e7072ab84760fed78812999f", "40aa0cd80144a205fc018f479eff5fce"⟩
    ⟨[], none, 0⟩ _ (by decide)

/-- Claim C6: checksum enforcement.  If the release is not cached and either
the downloaded archive's actual MD5 differs from the reference archive MD5,
or the archive matches but the extracted image's MD5 differs from the
reference image MD5, then `download_release` raises the MD5-check failure
(the spec's `IntegrityError`), performs exactly one network download (no
retry), and leaves the on-disk version index exactly as it was — the index
update is sequenced strictly after both checksum verifications. -/
theorem C6_checksum_enforcement :
    ∀ (v : String) (env : DiskEnv) (fs fs1 : FS) (rel : RelInfo) (e : Option DErr),
      releases v = some rel →
      check_cached v fs = false →
      (env.archMd5 ≠ rel.archmd5 ∨ (env.archMd5 = rel.archmd5 ∧ env.imgMd5 ≠ rel.imgmd5)) →
      download_release v false env fs = (fs1, e) →
      e = some .md5Failed ∧ fs1.index = fs.index ∧
        fs1.downloadCount = fs.downloadCount + 1 := by
  intro v env fs fs1 rel e hr hc hm h
  simp only [download_release] at h
  rw [if_neg (by simp [hc]), if_neg (by decide : ¬((false : Bool) = true))] at h
  split at h
  · rename_i heq
    rw [hr] at heq
    exact absurd heq (by simp)
  · rename_i rel2 heq
    rw [hr] at heq
    injection heq with heq2
    subst heq2
    split at h
    · rw [Prod.mk.injEq] at h
      obtain ⟨rfl, rfl⟩ := h
      exact ⟨rfl, rfl, rfl⟩
    · rename_i hno
      split at h
      · rw [Prod.mk.injEq] at h
        obtain ⟨rfl, rfl⟩ := h
        exact ⟨rfl, rfl, rfl⟩
      · rename_i hno2
        rcases hm with hm1 | ⟨-, hm2⟩
        · exact absurd hm1 hno
        · exact absurd hm2 hno2

/-- Witness for C6: a corrupted archive download of `2019_R1` from an empty
cache raises the MD5 failure, downloads once, and writes no index entry. -/
theorem C6_checksum_enforcement_witness :
    (some DErr.md5Failed : Option DErr) = some .md5Failed ∧
      (FS.mk ["2019_R1-2020_02_04.img.xz"] none 1).index = (FS.mk [] none 0).index ∧
      (FS.mk ["2019_R1-2020_02_04.img.xz"] none 1).downloadCount =
        (FS.mk [] none 0).downloadCount + 1 :=
  C6_checksum_enforcement "2019_R1"
    ⟨"0000", "0000"⟩ ⟨[], none, 0⟩ ⟨["2019_R1-2020_02_04.img.xz"], none, 1⟩
    ⟨"2019_R1-2020_02_04.img", "2019_R1-2020_02_04.img.xz",
      "49c121d5e7072ab84760fed78812999f", "40aa0cd80144a205fc018f479eff5fce"⟩
    (some .md5Failed) (by decide) (by decide) (Or.inl (by decide)) (by decide)

/-- Claim C7 counterexample: the index update performed by the source
(kuiperdldriver.py lines 295-296) is a truncating in-place rewrite of
`cache_info.json`: its file-operation sequence contains no rename step, and
interrupting it right after the truncating open (before the data write)
leaves the index file unreadable — the previously cached `2018_R2` entry is
lost.  This refutes both the claimed temporary-file-then-rename pattern and
the claimed "an interrupted write never corrupts or loses previously cached
entries". -/
theorem C7_index_write_counterexample :
    ((updateIndexSteps (kcp ++ "/cache_info.json")
        (setEntry "2019_R1" "kcache/2019_R1-2020_02_04.img"
          [("2018_R2", "kcache/2018_R2-2019_05_23.img")])).all
        (fun s => !(isRenameStep s)) = true) ∧
    readIndexFile
      (runWSteps
        [(kcp ++ "/cache_info.json",
          .complete [("2018_R2", "kcache/2018_R2-2019_05_23.img")])]
        ((updateIndexSteps (kcp ++ "/cache_info.json")
          (setEntry "2019_R1" "kcache/2019_R1-2020_02_04.img"
            [("2018_R2", "kcache/2018_R2-2019_05_23.img")])).take 1))
      (kcp ++ "/cache_info.json") = none :=
  ⟨by decide, by decide⟩

/-- Claim C7 amended: the version index is updated by reading the whole
index, modifying it, and rewriting the index file in place with a
truncating open — no temporary file and no rename.  A write that completes
preserves every previously cached entry (read-modify-write), but the update
is not atomic: interruption between the truncating open and the data write
loses the previous entries (see the counterexample). -/
theorem C7_index_write_amended :
    (∀ (ip : String) (prev : IndexData) (v p : String),
        readIndexFile
          (runWSteps [(ip, .complete prev)] (updateIndexSteps ip (setEntry v p prev)))
          ip = some (setEntry v p prev)) ∧
    (∀ (v p v' : String) (prev : IndexData), v' ≠ v →
        lookupEntry v' (setEntry v p prev) = lookupEntry v' prev) ∧
    (∀ (ip : String) (d : IndexData),
        (updateIndexSteps ip d).all (fun s => !(isRenameStep s)) = true) := by
  refine ⟨?_, ?_, ?_⟩
  · intro ip prev v p
    simp [runWSteps, updateIndexSteps, applyWStep, setFile, readIndexFile, getFile]
  · intro v p v' prev h
    exact lookupEntry_setEntry_ne v p v' prev h
  · intro ip d
    simp [updateIndexSteps, isRenameStep]

/-- Witness for C7 amended: a completed read-modify-write of the `2019_R1`
entry preserves the existing `2018_R2` entry. -/
theorem C7_index_write_amended_witness :
    lookupEntry "2018_R2"
      (setEntry "2019_R1" "kcache/2019_R1-2020_02_04.img"
        [("2018_R2", "kcache/2018_R2-2019_05_23.img")]) =
    lookupEntry "2018_R2" [("2018_R2", "kcache/2018_R2-2019_05_23.img")] :=
  C7_index_write_amended.2.1 "2019_R1" "kcache/2019_R1-2020_02_04.img" "2018_R2"
    [("2018_R2", "kcache/2018_R2-2019_05_23.img")] (by decide)

/-- Claim C8 counterexample: on a checksum mismatch the run aborts before
the cleanup code (there is no `try/finally` in `download_release`), so the
downloaded compressed archive is left behind — the intermediate artifacts
are NOT removed "regardless of whether the run succeeded or failed". -/
theorem C8_cleanup_counterexample :
    download_release "2019_R1" false
      ⟨"0000000000000000", "0000000000000000"⟩ ⟨[], none, 0⟩ =
      (⟨["2019_R1-2020_02_04.img.xz"], none, 1⟩, some .md5Failed) ∧
    "2019_R1-2020_02_04.img.xz" ∈
      (download_release "2019_R1" false
        ⟨"0000000000000000", "0000000000000000"⟩ ⟨[], none, 0⟩).1.files :=
  ⟨by decide, by decide⟩

/-- Claim C8 amended: the intermediate artifacts (compressed archive and
extracted image) are removed on the successful path only — a successful
`download_release` of `2019_R1` leaves neither the archive nor the
loose extracted image in the filesystem, only the cached verified image;
on a failure partway (e.g. checksum mismatch) they remain (see the
counterexample). -/
theorem C8_cleanup_amended :
    ∀ (env : DiskEnv) (fs fs1 : FS) (r : Option DErr),
      check_cached "2019_R1" fs = false →
      env.archMd5 = "49c121d5e7072ab84760fed78812999f" →
      env.imgMd5 = "40aa0cd80144a205fc018f479eff5fce" →
      "2019_R1-2020_02_04.img.xz" ∉ fs.files →
      "2019_R1-2020_02_04.img" ∉ fs.files →
      download_release "2019_R1" false env fs = (fs1, r) →
      r = none ∧ "2019_R1-2020_02_04.img.xz" ∉ fs1.files ∧
        "2019_R1-2020_02_04.img" ∉ fs1.files ∧
        "kcache/2019_R1-2020_02_04.img" ∈ fs1.files := by
  intro env fs fs1 r hc ha hi hA hI h
  simp only [download_release] at h
  rw [if_neg (by simp [hc]), if_neg (by decide : ¬((false : Bool) = true))] at h
  split at h
  · rename_i heq
    exact absurd heq (by decide)
  · rename_i rel heq
    have hrel : rel = ⟨"2019_R1-2020_02_04.img", "2019_R1-2020_02_04.img.xz",
        "49c121d5e7072ab84760fed78812999f", "40aa0cd80144a205fc018f479eff5fce"⟩ := by
      have hcomp : releases "2019_R1" = some ⟨"2019_R1-2020_02_04.img",
          "2019_R1-2020_02_04.img.xz", "49c121d5e7072ab84760fed78812999f",
          "40aa0cd80144a205fc018f479eff5fce"⟩ := by decide
      rw [hcomp] at heq
      injection heq with heq2
      exact heq2.symm
    subst hrel
    rw [if_neg (by simp [ha]), if_neg (by simp [hi]), Prod.mk.injEq] at h
    obtain ⟨rfl, rfl⟩ := h
    have hI2 : "2019_R1-2020_02_04.img" ∉
        "2019_R1-2020_02_04.img.xz" :: fs.files := by
      intro hmem
      rcases List.mem_cons.mp hmem with h' | h'
      · exact absurd h' (by decide)
      · exact hI h'
    refine ⟨rfl, ?_, ?_, ?_⟩
    · dsimp only [kcp]
      apply List.count_eq_zero.mp
      rw [List.count_erase_self,
        List.count_erase_of_ne (by decide : ("2019_R1-2020_02_04.img.xz" : String) ≠
          "kcache" ++ "/" ++ "2019_R1-2020_02_04.img.xz"),
        List.insert_of_not_mem hA, List.insert_of_not_mem hI2,
        List.erase_cons_head]
      by_cases hT : ("kcache" ++ "/" ++ "2019_R1-2020_02_04.img" : String) ∈
          "2019_R1-2020_02_04.img.xz" :: fs.files
      · rw [List.insert_of_mem hT, List.count_cons_self,
          List.count_eq_zero.mpr hA]
      · rw [List.insert_of_not_mem hT,
          List.count_cons_of_ne (by decide), List.count_cons_self,
          List.count_eq_zero.mpr hA]
    · dsimp only [kcp]
      apply List.count_eq_zero.mp
      rw [List.count_erase_of_ne (by decide :
          ("2019_R1-2020_02_04.img" : String) ≠ "2019_R1-2020_02_04.img.xz"),
        List.count_erase_of_ne (by decide : ("2019_R1-2020_02_04.img" : String) ≠
          "kcache" ++ "/" ++ "2019_R1-2020_02_04.img.xz"),
        List.insert_of_not_mem hA, List.insert_of_not_mem hI2,
        List.erase_cons_head]
      by_cases hT : ("kcache" ++ "/" ++ "2019_R1-2020_02_04.img" : String) ∈
          "2019_R1-2020_02_04.img.xz" :: fs.files
      · rw [List.insert_of_mem hT, List.count_cons_of_ne (by decide),
          List.count_eq_zero.mpr hI]
      · rw [List.insert_of_not_mem hT, List.count_cons_of_ne (by decide),
          List.count_cons_of_ne (by decide), List.count_eq_zero.mpr hI]
    · exact (List.mem_erase_of_ne (by decide)).2
        ((List.mem_erase_of_ne (by decide)).2 (List.mem_insert_self _ _))

/-- Witness for C8 amended: a successful `2019_R1` download from an empty
cache leaves only the verified image in the cache directory. -/
theorem C8_cleanup_amended_witness :
    (none : Option DErr) = none ∧
      "2019_R1-2020_02_04.img.xz" ∉
        (FS.mk ["kcache/2019_R1-2020_02_04.img"]
          (some [("2019_R1", "kcache/2019_R1-2020_02_04.img")]) 1).files ∧
      "2019_R1-2020_02_04.img" ∉
        (FS.mk ["kcache/2019_R1-2020_02_04.img"]
          (some [("2019_R1", "kcache/2019_R1-2020_02_04.img")]) 1).files ∧
      "kcache/2019_R1-2020_02_04.img" ∈
        (FS.mk ["kcache/2019_R1-2020_02_04.img"]
          (some [("2019_R1", "kcache/2019_R1-2020_02_04.img")]) 1).files :=
  C8_cleanup_amended
    ⟨"49c121d5e7072ab84760fed78812999f", "40aa0cd80144a205fc018f479eff5fce"⟩
    ⟨[], none, 0⟩
    ⟨["kcache/2019_R1-2020_02_04.img"],
      some [("2019_R1", "kcache/2019_R1-2020_02_04.img")], 1⟩
    none (by decide) rfl rfl (by decide) (by decide) (by decide)

/-- Claim C10: whenever the release is not already materialized in the
cache, `get_boot_files_from_release` delegates to `download_release` with
`get_boot_files=True`, whose branch raises `NotImplementedError` before any
network download or index update, so the call fails with the filesystem
(index, download count) unchanged and the extraction continuation is never
invoked. -/
theorem C10_boot_files_not_implemented :
    ∀ (v : String) (extract : FS → FS × Option DErr) (env : DiskEnv) (fs : FS),
      check_cached v fs = false →
      get_boot_files_from_release v extract env fs = (fs, some .notImplemented) := by
  intro v extract env fs hc
  simp [get_boot_files_from_release, download_release, hc]

/-- Witness for C10: from an empty cache, fetching boot files for `2019_R1`
raises `NotImplementedError` and changes nothing. -/
theorem C10_boot_files_not_implemented_witness :
    get_boot_files_from_release "2019_R1" (fun fs => (fs, none)) ⟨"a", "b"⟩
      ⟨[], none, 0⟩ = (⟨[], none, 0⟩, some .notImplemented) :=
  C10_boot_files_not_implemented "2019_R1" (fun fs => (fs, none)) ⟨"a", "b"⟩
    ⟨[], none, 0⟩ (by decide)
